import Mathlib

/-!
Verification development for the Valyu AI-SDK tool wrappers.

Each tool factory (`search`, `webSearch`, `financeSearch`, `academicSearch`,
`lifeSciencesSearch`, `patentSearch`, `secSearch`, `economicsSearch`,
`bioSearch`, `paperSearch`, `contents`, `datasources`,
`datasourcesCategories`) destructures its configuration with defaults,
checks the resolved API key, builds a request body by sequential
conditional assignment, issues one `fetch`, and either returns the parsed
JSON verbatim or wraps the failure.  The definitions below embed those
`execute` functions; the network is an explicit oracle from the composed
request to an outcome, and the list of issued requests is returned
alongside the result so that "zero network calls" is observable.
-/

namespace Valyu

/-- JSON values, used for parsed upstream responses (`response.json()`). -/
inductive Json where
  | null : Json
  | bool : Bool → Json
  | num : Rat → Json
  | str : String → Json
  | arr : List Json → Json
  | obj : List (String × Json) → Json

/-- A `responseLength` configuration value: a preset string or a character
count (`ValyuResponseLength = ValyuResponseLengthPreset | number`). -/
inductive RespLen where
  | preset : String → RespLen
  | count : Rat → RespLen
deriving DecidableEq, Repr

/-- A value stored in a composed request body: the bodies built by the
tools hold strings, numbers and string arrays. -/
inductive JVal where
  | str : String → JVal
  | num : Rat → JVal
  | strList : List String → JVal
deriving DecidableEq, Repr

/-- The `responseLength` value as placed into a request body (string
preset or numeric character count, verbatim). -/
def RespLen.toJVal : RespLen → JVal
  | .preset s => .str s
  | .count n => .num n

/-- A value thrown in JavaScript: either an `Error` instance (identified
by its message) or any other thrown value. -/
inductive JsValue where
  | jsError : String → JsValue
  | nonError : String → JsValue
deriving DecidableEq, Repr

/-- An outbound HTTP request as composed by a tool: URL, method, headers
and the JSON body (absent for GET requests). -/
structure NetRequest where
  url : String
  method : String
  headers : List (String × String)
  body : Option (List (String × JVal))

/-- Outcome of the single `fetch` (plus `response.text()` /
`response.json()`) from the tool's point of view. -/
inductive FetchOutcome where
  | httpOk : Json → FetchOutcome
  | httpErr : Nat → String → FetchOutcome
  | parseFail : JsValue → FetchOutcome
  | netFail : JsValue → FetchOutcome

/-- Result of a tool `execute`: the returned parsed JSON, or the value the
call threw. -/
inductive ExecResult where
  | ok : Json → ExecResult
  | thrown : JsValue → ExecResult

/-- `ValyuSearchConfig` (and structurally all the `ValyuBaseConfig`-derived
config interfaces): every field optional, `none` = the property is
`undefined`. -/
structure ValyuSearchConfig where
  apiKey : Option String := none
  searchType : Option String := none
  maxNumResults : Option Rat := none
  maxPrice : Option Rat := none
  relevanceThreshold : Option Rat := none
  isToolCall : Option Bool := none
  responseLength : Option RespLen := none
  includedSources : Option (List String) := none
  category : Option String := none
deriving DecidableEq, Repr

/-- `ValyuWebSearchConfig` has the same fields as `ValyuSearchConfig`. -/
abbrev ValyuWebSearchConfig := ValyuSearchConfig
/-- `ValyuFinanceSearchConfig` has the same fields. -/
abbrev ValyuFinanceSearchConfig := ValyuSearchConfig
/-- `ValyuAcademicSearchConfig` has the same fields. -/
abbrev ValyuAcademicSearchConfig := ValyuSearchConfig
/-- `ValyuLifeSciencesSearchConfig` has the same fields. -/
abbrev ValyuLifeSciencesSearchConfig := ValyuSearchConfig
/-- `ValyuPatentSearchConfig` has the same fields. -/
abbrev ValyuPatentSearchConfig := ValyuSearchConfig
/-- `ValyuSecSearchConfig` has the same fields. -/
abbrev ValyuSecSearchConfig := ValyuSearchConfig
/-- `ValyuEconomicsSearchConfig` has the same fields. -/
abbrev ValyuEconomicsSearchConfig := ValyuSearchConfig
/-- `ValyuBioSearchConfig` has the same fields. -/
abbrev ValyuBioSearchConfig := ValyuSearchConfig
/-- `ValyuPaperSearchConfig` has the same fields. -/
abbrev ValyuPaperSearchConfig := ValyuSearchConfig

/-- `ValyuContentsConfig`: apiKey, responseLength preset, extractEffort. -/
structure ValyuContentsConfig where
  apiKey : Option String := none
  responseLength : Option String := none
  extractEffort : Option String := none
deriving DecidableEq, Repr

/-- `ValyuDatasourcesConfig`: apiKey only. -/
structure ValyuDatasourcesConfig where
  apiKey : Option String := none
deriving DecidableEq, Repr

/-- Arguments accepted by the `search` / `webSearch` input schemas. -/
structure SearchArgs where
  query : String
  includedSources : Option (List String) := none
  excludedSources : Option (List String) := none
deriving DecidableEq, Repr

/-- `const { apiKey = process.env.VALYU_API_KEY, ... } = config`: the
destructuring default applies only when the property is `undefined`. -/
def resolveApiKey (env : Option String) (cfgKey : Option String) : Option String :=
  match cfgKey with
  | some k => some k
  | none => env

/-- The message of the error thrown when `!apiKey` holds. -/
def missingCredMsg : String :=
  "VALYU_API_KEY is required. Set it in environment variables or pass it in config."

/-- `if (!apiKey) throw ...`: an `undefined` or empty-string key fails the
truthiness check before any network activity. -/
def guardKey (key : Option String) (f : String → ExecResult × List NetRequest) :
    ExecResult × List NetRequest :=
  match key with
  | none => (.thrown (.jsError missingCredMsg), [])
  | some k => if k = "" then (.thrown (.jsError missingCredMsg), []) else f k

/-- The message of the error thrown on a non-ok response:
backtick-template `Valyu API error: {status} - {errorText}`. -/
def apiErrorMsg (status : Nat) (text : String) : String :=
  "Valyu API error: " ++ Nat.repr status ++ " - " ++ text

/-- The catch block: an `Error` is rethrown with the tool's fixed message
head prepended; any other thrown value is rethrown unchanged. -/
def wrapCatch (head : String) : JsValue → JsValue
  | .jsError m => .jsError (head ++ m)
  | .nonError v => .nonError v

/-- The shared try/catch around the `fetch`: issue the request, throw on a
non-2xx status (reading the body text into the message), return parsed
JSON on success; every `Error` escaping the try is wrapped with `head`. -/
def runFetch (head : String) (req : NetRequest)
    (transport : NetRequest → FetchOutcome) : ExecResult × List NetRequest :=
  match transport req with
  | .httpOk d => (.ok d, [req])
  | .httpErr s t => (.thrown (.jsError (head ++ apiErrorMsg s t)), [req])
  | .parseFail e => (.thrown (wrapCatch head e), [req])
  | .netFail e => (.thrown (wrapCatch head e), [req])

/-- URL of the deepsearch endpoint. -/
def deepsearchUrl : String := "https://api.valyu.ai/v1/deepsearch"

/-- Headers sent with every deepsearch POST. -/
def postHeaders (k : String) : List (String × String) :=
  [("Content-Type", "application/json"), ("x-api-key", k)]

/-- `if (otherOptions.maxPrice !== undefined) requestBody.max_price = ...` -/
def maxPricePart (o : Option Rat) : List (String × JVal) :=
  match o with
  | some p => [("max_price", .num p)]
  | none => []

/-- `if (otherOptions.relevanceThreshold !== undefined) ...` -/
def relevanceThresholdPart (o : Option Rat) : List (String × JVal) :=
  match o with
  | some r => [("relevance_threshold", .num r)]
  | none => []

/-- `if (otherOptions.category) requestBody.category = ...`: a truthiness
check, so an explicit empty string is also skipped. -/
def categoryPart (o : Option String) : List (String × JVal) :=
  match o with
  | some c => if c = "" then [] else [("category", .str c)]
  | none => []

/-- `if (otherOptions.responseLength !== undefined) ...` -/
def responseLengthPart (o : Option RespLen) : List (String × JVal) :=
  match o with
  | some r => [("response_length", r.toJVal)]
  | none => []

/-- The `else if (otherOptions.includedSources &&
otherOptions.includedSources.length > 0)` fallback: the configured list,
emitted only when present and non-empty. -/
def includedSourcesCfgPart (cfgI : Option (List String)) : List (String × JVal) :=
  match cfgI with
  | some m => if m.isEmpty then [] else [("included_sources", .strList m)]
  | none => []

/-- `if (includedSources && includedSources.length > 0) ... else if
(otherOptions.includedSources && otherOptions.includedSources.length > 0)
...`: the per-call argument wins when non-empty, else the config list when
non-empty, else the key is absent. -/
def includedSourcesPick (argI cfgI : Option (List String)) : List (String × JVal) :=
  match argI with
  | some l =>
      if l.isEmpty then includedSourcesCfgPart cfgI
      else [("included_sources", .strList l)]
  | none => includedSourcesCfgPart cfgI

/-- `if (excludedSources && excludedSources.length > 0) ...` -/
def excludedSourcesPart (argE : Option (List String)) : List (String × JVal) :=
  match argE with
  | some l => if l.isEmpty then [] else [("excluded_sources", .strList l)]
  | none => []

/-- Request body composed by `search` (src/search.ts): base fields with
defaults `searchType = "all"`, `maxNumResults = 5`, then `max_price`,
`relevance_threshold`, `category`, `response_length`, the
included-sources pick and the excluded-sources part, in that order. -/
def searchRequestBody (cfg : ValyuSearchConfig) (a : SearchArgs) :
    List (String × JVal) :=
  [("query", .str a.query),
   ("search_type", .str (cfg.searchType.getD "all")),
   ("max_num_results", .num (cfg.maxNumResults.getD 5))]
  ++ maxPricePart cfg.maxPrice
  ++ relevanceThresholdPart cfg.relevanceThreshold
  ++ categoryPart cfg.category
  ++ responseLengthPart cfg.responseLength
  ++ includedSourcesPick a.includedSources cfg.includedSources
  ++ excludedSourcesPart a.excludedSources

/-- Request body composed by `webSearch` (src/web-search.ts): same as
`search` except that no `response_length` assignment exists in the file. -/
def webSearchRequestBody (cfg : ValyuWebSearchConfig) (a : SearchArgs) :
    List (String × JVal) :=
  [("query", .str a.query),
   ("search_type", .str (cfg.searchType.getD "all")),
   ("max_num_results", .num (cfg.maxNumResults.getD 5))]
  ++ maxPricePart cfg.maxPrice
  ++ relevanceThresholdPart cfg.relevanceThreshold
  ++ categoryPart cfg.category
  ++ includedSourcesPick a.includedSources cfg.includedSources
  ++ excludedSourcesPart a.excludedSources

/-- `execute` of the `search` tool. -/
def searchExecute (env : Option String) (cfg : ValyuSearchConfig) (a : SearchArgs)
    (transport : NetRequest → FetchOutcome) : ExecResult × List NetRequest :=
  guardKey (resolveApiKey env cfg.apiKey) fun k =>
    runFetch "Failed to search with Valyu: "
      { url := deepsearchUrl, method := "POST", headers := postHeaders k,
        body := some (searchRequestBody cfg a) } transport

/-- `execute` of the `webSearch` tool. -/
def webSearchExecute (env : Option String) (cfg : ValyuWebSearchConfig) (a : SearchArgs)
    (transport : NetRequest → FetchOutcome) : ExecResult × List NetRequest :=
  guardKey (resolveApiKey env cfg.apiKey) fun k =>
    runFetch "Failed to search with Valyu: "
      { url := deepsearchUrl, method := "POST", headers := postHeaders k,
        body := some (webSearchRequestBody cfg a) } transport

/-- Default `includedSources` destructured in `financeSearch`. -/
def financeDefaultSources : List String :=
  ["valyu/valyu-stocks", "valyu/valyu-sec-filings", "valyu/valyu-earnings-US",
   "valyu/valyu-balance-sheet-US", "valyu/valyu-income-statement-US",
   "valyu/valyu-cash-flow-US", "valyu/valyu-dividends-US",
   "valyu/valyu-insider-transactions-US", "valyu/valyu-market-movers-US",
   "valyu/valyu-crypto", "valyu/valyu-forex", "valyu/valyu-bls",
   "valyu/valyu-fred", "valyu/valyu-world-bank"]

/-- Request body composed by `financeSearch`: defaults
`searchType = "proprietary"`, `maxNumResults = 5`, `included_sources`
always present in the initial object, then the optional fields. -/
def financeSearchRequestBody (cfg : ValyuFinanceSearchConfig) (query : String) :
    List (String × JVal) :=
  [("query", .str query),
   ("search_type", .str (cfg.searchType.getD "proprietary")),
   ("max_num_results", .num (cfg.maxNumResults.getD 5)),
   ("included_sources", .strList (cfg.includedSources.getD financeDefaultSources))]
  ++ maxPricePart cfg.maxPrice
  ++ relevanceThresholdPart cfg.relevanceThreshold
  ++ categoryPart cfg.category
  ++ responseLengthPart cfg.responseLength

/-- `execute` of the `financeSearch` tool. -/
def financeSearchExecute (env : Option String) (cfg : ValyuFinanceSearchConfig)
    (query : String) (transport : NetRequest → FetchOutcome) :
    ExecResult × List NetRequest :=
  guardKey (resolveApiKey env cfg.apiKey) fun k =>
    runFetch "Failed to search financial data with Valyu: "
      { url := deepsearchUrl, method := "POST", headers := postHeaders k,
        body := some (financeSearchRequestBody cfg query) } transport

/-- Default `includedSources` destructured in `academicSearch`. -/
def academicDefaultSources : List String :=
  ["valyu/valyu-arxiv", "valyu/valyu-biorxiv", "valyu/valyu-medrxiv",
   "valyu/valyu-pubmed"]

/-- Request body composed by `academicSearch` (defaults "proprietary"/5). -/
def academicSearchRequestBody (cfg : ValyuAcademicSearchConfig) (query : String) :
    List (String × JVal) :=
  [("query", .str query),
   ("search_type", .str (cfg.searchType.getD "proprietary")),
   ("max_num_results", .num (cfg.maxNumResults.getD 5)),
   ("included_sources", .strList (cfg.includedSources.getD academicDefaultSources))]
  ++ maxPricePart cfg.maxPrice
  ++ relevanceThresholdPart cfg.relevanceThreshold
  ++ categoryPart cfg.category
  ++ responseLengthPart cfg.responseLength

/-- `execute` of the `academicSearch` tool. -/
def academicSearchExecute (env : Option String) (cfg : ValyuAcademicSearchConfig)
    (query : String) (transport : NetRequest → FetchOutcome) :
    ExecResult × List NetRequest :=
  guardKey (resolveApiKey env cfg.apiKey) fun k =>
    runFetch "Failed to search academic papers with Valyu: "
      { url := deepsearchUrl, method := "POST", headers := postHeaders k,
        body := some (academicSearchRequestBody cfg query) } transport

/-- Default `includedSources` destructured in `lifeSciencesSearch`. -/
def lifeSciencesDefaultSources : List String :=
  ["valyu/valyu-clinical-trials", "valyu/valyu-drug-labels",
   "valyu/valyu-chembl", "valyu/valyu-pubchem", "valyu/valyu-drugbank",
   "valyu/valyu-open-targets", "valyu/valyu-npi-registry",
   "valyu/valyu-who-icd", "valyu/valyu-ncbi-gene", "valyu/valyu-ncbi-snp",
   "valyu/valyu-ncbi-clinvar", "valyu/valyu-ncbi-geo", "valyu/valyu-ncbi-sra"]

/-- Request body composed by `lifeSciencesSearch` (defaults "proprietary"/5). -/
def lifeSciencesSearchRequestBody (cfg : ValyuLifeSciencesSearchConfig)
    (query : String) : List (String × JVal) :=
  [("query", .str query),
   ("search_type", .str (cfg.searchType.getD "proprietary")),
   ("max_num_results", .num (cfg.maxNumResults.getD 5)),
   ("included_sources", .strList (cfg.includedSources.getD lifeSciencesDefaultSources))]
  ++ maxPricePart cfg.maxPrice
  ++ relevanceThresholdPart cfg.relevanceThreshold
  ++ categoryPart cfg.category
  ++ responseLengthPart cfg.responseLength

/-- `execute` of the `lifeSciencesSearch` tool. -/
def lifeSciencesSearchExecute (env : Option String) (cfg : ValyuLifeSciencesSearchConfig)
    (query : String) (transport : NetRequest → FetchOutcome) :
    ExecResult × List NetRequest :=
  guardKey (resolveApiKey env cfg.apiKey) fun k =>
    runFetch "Failed to search life sciences data with Valyu: "
      { url := deepsearchUrl, method := "POST", headers := postHeaders k,
        body := some (lifeSciencesSearchRequestBody cfg query) } transport

/-- Modelled from the spec: `patent-search.ts` is not among the provided
source files (only the `index.ts` export and an example script reference
it).  Spec §4.3 states that every search variant is structurally
identical, differing only in default source list, default result count
and description; this default source list is the modelled part. -/
def patentDefaultSources : List String := ["valyu/valyu-patents"]

/-- Modelled from the spec: request body of the missing `patentSearch`
tool, following the shared shape of §4.2/§4.3 (base fields with
"proprietary"/5 defaults, default included-sources list, then the
optional fields). -/
def patentSearchRequestBody (cfg : ValyuPatentSearchConfig) (query : String) :
    List (String × JVal) :=
  [("query", .str query),
   ("search_type", .str (cfg.searchType.getD "proprietary")),
   ("max_num_results", .num (cfg.maxNumResults.getD 5)),
   ("included_sources", .strList (cfg.includedSources.getD patentDefaultSources))]
  ++ maxPricePart cfg.maxPrice
  ++ relevanceThresholdPart cfg.relevanceThreshold
  ++ categoryPart cfg.category
  ++ responseLengthPart cfg.responseLength

/-- Modelled from the spec: `execute` of the missing `patentSearch` tool —
credential guard before any network attempt (§4.1), one POST to the
deepsearch endpoint (§6), errors wrapped with a fixed tool message head
(§7). -/
def patentSearchExecute (env : Option String) (cfg : ValyuPatentSearchConfig)
    (query : String) (transport : NetRequest → FetchOutcome) :
    ExecResult × List NetRequest :=
  guardKey (resolveApiKey env cfg.apiKey) fun k =>
    runFetch "Failed to search patents with Valyu: "
      { url := deepsearchUrl, method := "POST", headers := postHeaders k,
        body := some (patentSearchRequestBody cfg query) } transport

/-- Default `includedSources` destructured in `secSearch`. -/
def secDefaultSources : List String := ["valyu/valyu-sec-filings"]

/-- Request body composed by `secSearch` (defaults "proprietary"/5). -/
def secSearchRequestBody (cfg : ValyuSecSearchConfig) (query : String) :
    List (String × JVal) :=
  [("query", .str query),
   ("search_type", .str (cfg.searchType.getD "proprietary")),
   ("max_num_results", .num (cfg.maxNumResults.getD 5)),
   ("included_sources", .strList (cfg.includedSources.getD secDefaultSources))]
  ++ maxPricePart cfg.maxPrice
  ++ relevanceThresholdPart cfg.relevanceThreshold
  ++ categoryPart cfg.category
  ++ responseLengthPart cfg.responseLength

/-- `execute` of the `secSearch` tool. -/
def secSearchExecute (env : Option String) (cfg : ValyuSecSearchConfig)
    (query : String) (transport : NetRequest → FetchOutcome) :
    ExecResult × List NetRequest :=
  guardKey (resolveApiKey env cfg.apiKey) fun k =>
    runFetch "Failed to search SEC filings with Valyu: "
      { url := deepsearchUrl, method := "POST", headers := postHeaders k,
        body := some (secSearchRequestBody cfg query) } transport

/-- Default `includedSources` destructured in `economicsSearch`. -/
def economicsDefaultSources : List String :=
  ["valyu/valyu-bls", "valyu/valyu-fred", "valyu/valyu-world-bank",
   "valyu/valyu-worldbank-indicators", "valyu/valyu-usaspending"]

/-- Request body composed by `economicsSearch`: defaults
`searchType = "proprietary"`, `maxNumResults = 3`; no `response_length`
assignment exists in the file. -/
def economicsSearchRequestBody (cfg : ValyuEconomicsSearchConfig) (query : String) :
    List (String × JVal) :=
  [("query", .str query),
   ("search_type", .str (cfg.searchType.getD "proprietary")),
   ("max_num_results", .num (cfg.maxNumResults.getD 3)),
   ("included_sources", .strList (cfg.includedSources.getD economicsDefaultSources))]
  ++ maxPricePart cfg.maxPrice
  ++ relevanceThresholdPart cfg.relevanceThreshold
  ++ categoryPart cfg.category

/-- `execute` of the `economicsSearch` tool. -/
def economicsSearchExecute (env : Option String) (cfg : ValyuEconomicsSearchConfig)
    (query : String) (transport : NetRequest → FetchOutcome) :
    ExecResult × List NetRequest :=
  guardKey (resolveApiKey env cfg.apiKey) fun k =>
    runFetch "Failed to search economic data with Valyu: "
      { url := deepsearchUrl, method := "POST", headers := postHeaders k,
        body := some (economicsSearchRequestBody cfg query) } transport

/-- Default `includedSources` destructured in `bioSearch`. -/
def bioDefaultSources : List String :=
  ["valyu/valyu-pubmed", "valyu/valyu-biorxiv", "valyu/valyu-medrxiv",
   "valyu/valyu-clinical-trials", "valyu/valyu-drug-labels"]

/-- Request body composed by `bioSearch` (defaults "proprietary"/5); no
`response_length` assignment exists in the file. -/
def bioSearchRequestBody (cfg : ValyuBioSearchConfig) (query : String) :
    List (String × JVal) :=
  [("query", .str query),
   ("search_type", .str (cfg.searchType.getD "proprietary")),
   ("max_num_results", .num (cfg.maxNumResults.getD 5)),
   ("included_sources", .strList (cfg.includedSources.getD bioDefaultSources))]
  ++ maxPricePart cfg.maxPrice
  ++ relevanceThresholdPart cfg.relevanceThreshold
  ++ categoryPart cfg.category

/-- `execute` of the `bioSearch` tool. -/
def bioSearchExecute (env : Option String) (cfg : ValyuBioSearchConfig)
    (query : String) (transport : NetRequest → FetchOutcome) :
    ExecResult × List NetRequest :=
  guardKey (resolveApiKey env cfg.apiKey) fun k =>
    runFetch "Failed to search biomedical data with Valyu: "
      { url := deepsearchUrl, method := "POST", headers := postHeaders k,
        body := some (bioSearchRequestBody cfg query) } transport

/-- Default `includedSources` destructured in `paperSearch`. -/
def paperDefaultSources : List String :=
  ["valyu/valyu-arxiv", "valyu/valyu-biorxiv", "valyu/valyu-medrxiv",
   "valyu/valyu-pubmed"]

/-- Request body composed by `paperSearch` (defaults "proprietary"/5). -/
def paperSearchRequestBody (cfg : ValyuPaperSearchConfig) (query : String) :
    List (String × JVal) :=
  [("query", .str query),
   ("search_type", .str (cfg.searchType.getD "proprietary")),
   ("max_num_results", .num (cfg.maxNumResults.getD 5)),
   ("included_sources", .strList (cfg.includedSources.getD paperDefaultSources))]
  ++ maxPricePart cfg.maxPrice
  ++ relevanceThresholdPart cfg.relevanceThreshold
  ++ categoryPart cfg.category
  ++ responseLengthPart cfg.responseLength

/-- `execute` of the `paperSearch` tool. -/
def paperSearchExecute (env : Option String) (cfg : ValyuPaperSearchConfig)
    (query : String) (transport : NetRequest → FetchOutcome) :
    ExecResult × List NetRequest :=
  guardKey (resolveApiKey env cfg.apiKey) fun k =>
    runFetch "Failed to search research papers with Valyu: "
      { url := deepsearchUrl, method := "POST", headers := postHeaders k,
        body := some (paperSearchRequestBody cfg query) } transport

/-- Request body composed by `contents`: urls, resolved response length
(default "max") and extraction effort (default "auto") are always sent. -/
def contentsRequestBody (cfg : ValyuContentsConfig) (urls : List String) :
    List (String × JVal) :=
  [("urls", .strList urls),
   ("response_length", .str (cfg.responseLength.getD "max")),
   ("extract_effort", .str (cfg.extractEffort.getD "auto"))]

/-- `execute` of the `contents` tool (POST /v1/contents). -/
def contentsExecute (env : Option String) (cfg : ValyuContentsConfig)
    (urls : List String) (transport : NetRequest → FetchOutcome) :
    ExecResult × List NetRequest :=
  guardKey (resolveApiKey env cfg.apiKey) fun k =>
    runFetch "Failed to extract content with Valyu: "
      { url := "https://api.valyu.ai/v1/contents", method := "POST",
        headers := postHeaders k, body := some (contentsRequestBody cfg urls) }
      transport

/-- Hexadecimal digit character (uppercase, as produced by JavaScript
percent-encoding). -/
def hexDigitChar (n : Nat) : Char :=
  if n < 10 then Char.ofNat (48 + n) else Char.ofNat (55 + n)

/-- Bytes left unescaped by `encodeURIComponent`: ASCII letters, digits,
and - _ . ! ~ * ' ( ). -/
def uriUnescapedByte (b : Nat) : Bool :=
  (65 ≤ b && b ≤ 90) || (97 ≤ b && b ≤ 122) || (48 ≤ b && b ≤ 57) ||
  b == 45 || b == 95 || b == 46 || b == 33 || b == 126 || b == 42 ||
  b == 39 || b == 40 || b == 41

/-- JavaScript `encodeURIComponent`: UTF-8 bytes outside the unescaped
set become %HH escapes. -/
def encodeURIComponent (s : String) : String :=
  String.mk (s.toUTF8.toList.foldr
    (fun b acc =>
      if uriUnescapedByte b.toNat then Char.ofNat b.toNat :: acc
      else '%' :: hexDigitChar (b.toNat / 16) :: hexDigitChar (b.toNat % 16) :: acc)
    [])

/-- URL built by `datasources`: the category query parameter is appended
only when `category` is truthy (present and non-empty). -/
def datasourcesUrl (category : Option String) : String :=
  match category with
  | some c =>
      if c = "" then "https://api.valyu.ai/v1/datasources"
      else "https://api.valyu.ai/v1/datasources?category=" ++ encodeURIComponent c
  | none => "https://api.valyu.ai/v1/datasources"

/-- `execute` of the `datasources` tool (GET, `x-api-key` header only). -/
def datasourcesExecute (env : Option String) (cfg : ValyuDatasourcesConfig)
    (category : Option String) (transport : NetRequest → FetchOutcome) :
    ExecResult × List NetRequest :=
  guardKey (resolveApiKey env cfg.apiKey) fun k =>
    runFetch "Failed to fetch datasources from Valyu: "
      { url := datasourcesUrl category, method := "GET",
        headers := [("x-api-key", k)], body := none } transport

/-- `execute` of the `datasourcesCategories` tool. -/
def datasourcesCategoriesExecute (env : Option String)
    (cfg : ValyuDatasourcesConfig) (transport : NetRequest → FetchOutcome) :
    ExecResult × List NetRequest :=
  guardKey (resolveApiKey env cfg.apiKey) fun k =>
    runFetch "Failed to fetch datasource categories from Valyu: "
      { url := "https://api.valyu.ai/v1/datasources/categories", method := "GET",
        headers := [("x-api-key", k)], body := none } transport

/-- `ValyuCompanyResearchConfig` (src/types.ts): apiKey and a per-section
price cap. -/
structure ValyuCompanyResearchConfig where
  apiKey : Option String := none
  dataMaxPrice : Option Rat := none
deriving DecidableEq, Repr

/-- Modelled from the spec: `company-research.ts` is not among the
provided source files (only the `index.ts` export, `types.ts` and an
example script reference it).  Spec §4.2 lists the report sections the
composite tool can request; the absence of a section filter means "all
sections". -/
def companyResearchAllSections : List String :=
  ["summary", "leadership", "products", "funding", "competitors",
   "filings", "financials", "news", "insiders"]

/-- Modelled from the spec: concatenation of the rendered report
sections into one document. -/
def concatAll : List String → String
  | [] => ""
  | x :: xs => x ++ concatAll xs

/-- Modelled from the spec: one section of the composite report — spec
§4.5 requires section headers and that a failed section be reported
inline for that section only. -/
def renderSection (fetchSection : String → Except String String) (s : String) :
    String :=
  match fetchSection s with
  | .ok content => "## " ++ s ++ "\n" ++ content ++ "\n"
  | .error e => "## " ++ s ++ "\n[section failed: " ++ e ++ "]" ++ "\n"

/-- Modelled from the spec: the composite `companyResearch` execute —
credential resolution and guard as in every tool (§4.1), per-section
retrievals joined into a single structured document (§4.5); a section
failure is reported inline and never aborts the whole call, so the only
failure of the call itself is the missing credential. -/
def companyResearchExecute (env : Option String)
    (cfg : ValyuCompanyResearchConfig) (company : String)
    (sectionFilter : Option (List String))
    (fetchSection : String → Except String String) : Except JsValue String :=
  match resolveApiKey env cfg.apiKey with
  | none => .error (.jsError missingCredMsg)
  | some k =>
      if k = "" then .error (.jsError missingCredMsg)
      else .ok ("# Company Research: " ++ company ++ "\n" ++
        concatAll ((sectionFilter.getD companyResearchAllSections).map
          (renderSection fetchSection)))

/-- One invocation of one of the thirteen tools: the constructor carries
the process environment key, the tool's configuration and the
schema-validated arguments. -/
inductive Invocation where
  | search (env : Option String) (cfg : ValyuSearchConfig) (a : SearchArgs)
  | webSearch (env : Option String) (cfg : ValyuWebSearchConfig) (a : SearchArgs)
  | financeSearch (env : Option String) (cfg : ValyuFinanceSearchConfig) (query : String)
  | academicSearch (env : Option String) (cfg : ValyuAcademicSearchConfig) (query : String)
  | lifeSciencesSearch (env : Option String) (cfg : ValyuLifeSciencesSearchConfig) (query : String)
  | patentSearch (env : Option String) (cfg : ValyuPatentSearchConfig) (query : String)
  | secSearch (env : Option String) (cfg : ValyuSecSearchConfig) (query : String)
  | economicsSearch (env : Option String) (cfg : ValyuEconomicsSearchConfig) (query : String)
  | bioSearch (env : Option String) (cfg : ValyuBioSearchConfig) (query : String)
  | paperSearch (env : Option String) (cfg : ValyuPaperSearchConfig) (query : String)
  | contents (env : Option String) (cfg : ValyuContentsConfig) (urls : List String)
  | datasources (env : Option String) (cfg : ValyuDatasourcesConfig) (category : Option String)
  | datasourcesCategories (env : Option String) (cfg : ValyuDatasourcesConfig)

/-- Run the selected tool's `execute`. -/
def invoke (i : Invocation) (transport : NetRequest → FetchOutcome) :
    ExecResult × List NetRequest :=
  match i with
  | .search env cfg a => searchExecute env cfg a transport
  | .webSearch env cfg a => webSearchExecute env cfg a transport
  | .financeSearch env cfg q => financeSearchExecute env cfg q transport
  | .academicSearch env cfg q => academicSearchExecute env cfg q transport
  | .lifeSciencesSearch env cfg q => lifeSciencesSearchExecute env cfg q transport
  | .patentSearch env cfg q => patentSearchExecute env cfg q transport
  | .secSearch env cfg q => secSearchExecute env cfg q transport
  | .economicsSearch env cfg q => economicsSearchExecute env cfg q transport
  | .bioSearch env cfg q => bioSearchExecute env cfg q transport
  | .paperSearch env cfg q => paperSearchExecute env cfg q transport
  | .contents env cfg urls => contentsExecute env cfg urls transport
  | .datasources env cfg c => datasourcesExecute env cfg c transport
  | .datasourcesCategories env cfg => datasourcesCategoriesExecute env cfg transport

/-- The caller-configured API key of an invocation. -/
def Invocation.cfgApiKey : Invocation → Option String
  | .search _ cfg _ => cfg.apiKey
  | .webSearch _ cfg _ => cfg.apiKey
  | .financeSearch _ cfg _ => cfg.apiKey
  | .academicSearch _ cfg _ => cfg.apiKey
  | .lifeSciencesSearch _ cfg _ => cfg.apiKey
  | .patentSearch _ cfg _ => cfg.apiKey
  | .secSearch _ cfg _ => cfg.apiKey
  | .economicsSearch _ cfg _ => cfg.apiKey
  | .bioSearch _ cfg _ => cfg.apiKey
  | .paperSearch _ cfg _ => cfg.apiKey
  | .contents _ cfg _ => cfg.apiKey
  | .datasources _ cfg _ => cfg.apiKey
  | .datasourcesCategories _ cfg => cfg.apiKey

/-- The process-environment key (`process.env.VALYU_API_KEY`) visible to
an invocation. -/
def Invocation.envKey : Invocation → Option String
  | .search env _ _ => env
  | .webSearch env _ _ => env
  | .financeSearch env _ _ => env
  | .academicSearch env _ _ => env
  | .lifeSciencesSearch env _ _ => env
  | .patentSearch env _ _ => env
  | .secSearch env _ _ => env
  | .economicsSearch env _ _ => env
  | .bioSearch env _ _ => env
  | .paperSearch env _ _ => env
  | .contents env _ _ => env
  | .datasources env _ _ => env
  | .datasourcesCategories env _ => env

/-- The API key after destructuring with the environment default. -/
def Invocation.resolvedKey (i : Invocation) : Option String :=
  resolveApiKey i.envKey i.cfgApiKey

/-- The fixed tool-specific message head prepended by each catch block. -/
def Invocation.wrapHead : Invocation → String
  | .search _ _ _ => "Failed to search with Valyu: "
  | .webSearch _ _ _ => "Failed to search with Valyu: "
  | .financeSearch _ _ _ => "Failed to search financial data with Valyu: "
  | .academicSearch _ _ _ => "Failed to search academic papers with Valyu: "
  | .lifeSciencesSearch _ _ _ => "Failed to search life sciences data with Valyu: "
  | .patentSearch _ _ _ => "Failed to search patents with Valyu: "
  | .secSearch _ _ _ => "Failed to search SEC filings with Valyu: "
  | .economicsSearch _ _ _ => "Failed to search economic data with Valyu: "
  | .bioSearch _ _ _ => "Failed to search biomedical data with Valyu: "
  | .paperSearch _ _ _ => "Failed to search research papers with Valyu: "
  | .contents _ _ _ => "Failed to extract content with Valyu: "
  | .datasources _ _ _ => "Failed to fetch datasources from Valyu: "
  | .datasourcesCategories _ _ => "Failed to fetch datasource categories from Valyu: "

/-- `n` occurs as a contiguous substring of `h`. -/
def strContains (h n : String) : Prop := ∃ p q, h = p ++ n ++ q

/-- The key names of a composed request body. -/
def bodyKeys (b : List (String × JVal)) : List String := b.map Prod.fst

/-! ### Helper lemmas -/

/-- A key that is `undefined`, or set to the empty string, fails the
truthiness guard. -/
theorem guardKey_missing {key : Option String}
    (h : key = none ∨ key = some "") (f : String → ExecResult × List NetRequest) :
    guardKey key f = (.thrown (.jsError missingCredMsg), []) := by
  rcases h with h | h <;> subst h <;> simp [guardKey]

/-- A resolvable non-empty key passes the guard. -/
theorem guardKey_provided {key : Option String} {k : String} (h : key = some k)
    (hk : k ≠ "") (f : String → ExecResult × List NetRequest) :
    guardKey key f = f k := by
  subst h; simp [guardKey, hk]

/-- Every tool's `execute` is the credential guard followed by one
guarded fetch with the tool's fixed message head. -/
theorem invoke_as_guard (i : Invocation) (transport : NetRequest → FetchOutcome) :
    ∃ mk : String → NetRequest,
      invoke i transport
        = guardKey i.resolvedKey (fun k => runFetch i.wrapHead (mk k) transport) := by
  cases i <;> exact ⟨_, rfl⟩

/-- Explicit-decomposition introduction for `strContains`. -/
theorem strContains_of_eq {h : String} (p n q : String) (e : h = p ++ n ++ q) :
    strContains h n := ⟨p, q, e⟩

/-! ### Claim theorems -/

/-- C1: for every tool invocation (all thirteen tools) where neither the
caller configuration nor the environment provides an API key, `execute`
fails with the missing-credential error and issues zero network calls. -/
theorem C1_missing_key_zero_network (i : Invocation)
    (transport : NetRequest → FetchOutcome)
    (hc : i.cfgApiKey = none ∨ i.cfgApiKey = some "")
    (he : i.envKey = none ∨ i.envKey = some "") :
    invoke i transport = (.thrown (.jsError missingCredMsg), []) := by
  obtain ⟨mk, hmk⟩ := invoke_as_guard i transport
  rw [hmk]
  apply guardKey_missing
  rcases hc with h | h
  · simpa [Invocation.resolvedKey, resolveApiKey, h] using he
  · exact Or.inr (by simp [Invocation.resolvedKey, resolveApiKey, h])

/-- Witness for C1: a concrete `search` invocation with no key anywhere
fails with the missing-credential error and an empty request trace. -/
theorem C1_missing_key_zero_network_witness :
    invoke (.search none {} { query := "q" }) (fun _ => .httpOk .null)
      = (.thrown (.jsError missingCredMsg), []) :=
  C1_missing_key_zero_network _ _ (Or.inl rfl) (Or.inl rfl)

/-- C9: an explicitly supplied empty-string `apiKey` is treated as absent
— the tool throws the missing-credential error without falling back to
the environment variable, whatever the environment holds, and issues no
network call. -/
theorem C9_empty_config_key_no_env_fallback (i : Invocation)
    (transport : NetRequest → FetchOutcome) (hc : i.cfgApiKey = some "") :
    invoke i transport = (.thrown (.jsError missingCredMsg), []) := by
  obtain ⟨mk, hmk⟩ := invoke_as_guard i transport
  rw [hmk]
  apply guardKey_missing
  exact Or.inr (by simp [Invocation.resolvedKey, resolveApiKey, hc])

/-- Witness for C9: empty-string config key with the environment variable
set still fails with the missing-credential error and no network call. -/
theorem C9_empty_config_key_no_env_fallback_witness :
    invoke (.search (some "env-key") { apiKey := some "" } { query := "q" })
      (fun _ => .httpOk .null)
      = (.thrown (.jsError missingCredMsg), []) :=
  C9_empty_config_key_no_env_fallback _ _ rfl

/-- C4: with a resolvable key, a non-2xx upstream status makes the tool
fail with an error whose message contains both the numeric status code
and the response body text (which the handler read before failing). -/
theorem C4_upstream_error_message (i : Invocation) (k : String) (status : Nat)
    (text : String) (hk : i.resolvedKey = some k) (hk2 : k ≠ "") :
    ∃ m req, invoke i (fun _ => .httpErr status text)
        = (.thrown (.jsError m), [req])
      ∧ strContains m (Nat.repr status) ∧ strContains m text := by
  obtain ⟨mk, hmk⟩ := invoke_as_guard i (fun _ => .httpErr status text)
  rw [hmk, guardKey_provided hk hk2]
  refine ⟨_, _, rfl, ?_, ?_⟩
  · exact strContains_of_eq (i.wrapHead ++ "Valyu API error: ") _ (" - " ++ text)
      (by simp [apiErrorMsg, String.append_assoc])
  · exact strContains_of_eq
      (i.wrapHead ++ "Valyu API error: " ++ Nat.repr status ++ " - ") _ ""
      (by simp [apiErrorMsg, String.append_assoc])

/-- Witness for C4: `search` with a key and a mocked HTTP 500 / body
"rate limited" fails with a message containing "500" and the body. -/
theorem C4_upstream_error_message_witness :
    ∃ m req, invoke (.search (some "k") {} { query := "q" })
        (fun _ => .httpErr 500 "rate limited")
        = (.thrown (.jsError m), [req])
      ∧ strContains m (Nat.repr 500) ∧ strContains m "rate limited" :=
  C4_upstream_error_message _ "k" 500 "rate limited" rfl (by decide)

/-- C6: with a resolvable key, a 2xx upstream response is returned
verbatim — the parsed JSON comes back unmodified, so every result item
keeps its fields, names and position. -/
theorem C6_success_passthrough (i : Invocation) (k : String) (d : Json)
    (hk : i.resolvedKey = some k) (hk2 : k ≠ "") :
    ∃ req, invoke i (fun _ => .httpOk d) = (.ok d, [req]) := by
  obtain ⟨mk, hmk⟩ := invoke_as_guard i (fun _ => .httpOk d)
  rw [hmk, guardKey_provided hk hk2]
  exact ⟨mk k, rfl⟩

/-- One upstream result item used by the C6 witness. -/
def resultItem (n : String) : Json :=
  .obj [("id", .str n), ("title", .str ("T " ++ n)),
        ("url", .str ("https://example.com/" ++ n)),
        ("content", .str ("content " ++ n)), ("source", .str "web"),
        ("length", .num 9), ("price", .num 0),
        ("data_type", .str "unstructured"), ("source_type", .str "website")]

/-- A well-formed `ApiResponse` with three result items. -/
def threeItemResponse : Json :=
  .obj [("success", .bool true), ("error", .str ""), ("tx_id", .str "tx1"),
        ("query", .str "q"),
        ("results", .arr [resultItem "r1", resultItem "r2", resultItem "r3"]),
        ("results_by_source", .obj [("web", .num 3), ("proprietary", .num 0)]),
        ("total_deduction_pcm", .num 0), ("total_deduction_dollars", .num 0),
        ("total_characters", .num 30)]

/-- Witness for C6: a mocked response with three result items comes back
verbatim from a concrete `search` invocation. -/
theorem C6_success_passthrough_witness :
    ∃ req, invoke (.search (some "k") {} { query := "q" })
        (fun _ => .httpOk threeItemResponse)
      = (.ok threeItemResponse, [req]) :=
  C6_success_passthrough _ "k" threeItemResponse rfl (by decide)

/-- Arguments of the C3 scenario. -/
def c3Args : SearchArgs := { query := "latest AI datacenter news" }

/-- Mocked success response of the C3 scenario (`results: []`). -/
def c3Mock : Json :=
  .obj [("success", .bool true), ("error", .str ""), ("results", .arr [])]

/-- The body the C3 scenario expects. -/
def c3Body : List (String × JVal) :=
  [("query", .str "latest AI datacenter news"),
   ("search_type", .str "all"), ("max_num_results", .num 5)]

/-- C3: `webSearch` on `{query: "latest AI datacenter news"}` with default
configuration composes exactly
`{query, search_type: "all", max_num_results: 5}`, and a mocked success
response is returned verbatim. -/
theorem C3_websearch_default_scenario :
    webSearchRequestBody {} c3Args = c3Body ∧
    webSearchExecute (some "k") {} c3Args (fun _ => .httpOk c3Mock)
      = (.ok c3Mock,
         [{ url := deepsearchUrl, method := "POST", headers := postHeaders "k",
            body := some c3Body }]) := by
  constructor <;> rfl

/-- C10 counterexample: the missing-credential failure is itself thrown
as an `Error`, yet it is raised before the try block and therefore never
wrapped — its message does not begin with the tool's fixed message head,
refuting the claim's "every failure that is an Error instance". -/
theorem C10_counterexample_unwrapped_error :
    invoke (.search none {} { query := "q" }) (fun _ => .httpOk .null)
      = (.thrown (.jsError missingCredMsg), [])
    ∧ ∀ r : String, missingCredMsg ≠ "Failed to search with Valyu: " ++ r := by
  refine ⟨rfl, fun r h => ?_⟩
  have h2 : missingCredMsg.data.head?
      = ("Failed to search with Valyu: " ++ r).data.head? := by rw [h]
  have hV : missingCredMsg.data.head? = some 'V' := rfl
  have hF : (("Failed to search with Valyu: " ++ r).data).head? = some 'F' := by
    rw [String.data_append, List.head?_append]; rfl
  rw [hV, hF] at h2
  exact absurd (Option.some.inj h2) (by decide)

/-- C10 amended: with a resolvable key, every `Error` raised during the
network phase — including the internally raised non-2xx upstream error,
which surfaces double-wrapped — is rethrown wrapped with the tool's
fixed message head, while a thrown value that is not an `Error` instance
propagates unchanged.  (The pre-network missing-credential error is not
wrapped; see the counterexample.) -/
theorem C10_amended_network_phase_wrapping (i : Invocation) (k : String)
    (hk : i.resolvedKey = some k) (hk2 : k ≠ "") :
    (∀ m, ∃ req, invoke i (fun _ => .netFail (.jsError m))
        = (.thrown (.jsError (i.wrapHead ++ m)), [req])) ∧
    (∀ v, ∃ req, invoke i (fun _ => .netFail (.nonError v))
        = (.thrown (.nonError v), [req])) ∧
    (∀ status text, ∃ req, invoke i (fun _ => .httpErr status text)
        = (.thrown (.jsError (i.wrapHead ++ apiErrorMsg status text)), [req])) := by
  refine ⟨fun m => ?_, fun v => ?_, fun status text => ?_⟩ <;>
  · obtain ⟨mk, hmk⟩ := invoke_as_guard i _
    rw [hmk, guardKey_provided hk hk2]
    exact ⟨mk k, rfl⟩

/-- Witness for the amended C10 at a concrete `datasources` invocation:
an `Error` thrown by the transport is wrapped with the fixed head, a
non-`Error` value is not. -/
theorem C10_amended_network_phase_wrapping_witness :
    (∃ req, invoke (.datasources (some "k") {} none)
        (fun _ => .netFail (.jsError "boom"))
      = (.thrown (.jsError
          ("Failed to fetch datasources from Valyu: " ++ "boom")), [req])) ∧
    (∃ req, invoke (.datasources (some "k") {} none)
        (fun _ => .netFail (.nonError "42"))
      = (.thrown (.nonError "42"), [req])) :=
  ⟨(C10_amended_network_phase_wrapping (.datasources (some "k") {} none) "k"
      rfl (by decide)).1 "boom",
   (C10_amended_network_phase_wrapping (.datasources (some "k") {} none) "k"
      rfl (by decide)).2.1 "42"⟩

/-- Key membership distributes over the concatenated body parts. -/
theorem mem_bodyKeys_append {k : String} {x y : List (String × JVal)} :
    k ∈ bodyKeys (x ++ y) ↔ k ∈ bodyKeys x ∨ k ∈ bodyKeys y := by
  simp [bodyKeys]

/-- `max_price` part key characterization. -/
theorem mem_bodyKeys_maxPricePart {k : String} {o : Option Rat} :
    k ∈ bodyKeys (maxPricePart o) ↔ k = "max_price" ∧ o ≠ none := by
  cases o <;> simp [maxPricePart, bodyKeys]

/-- `relevance_threshold` part key characterization. -/
theorem mem_bodyKeys_relevanceThresholdPart {k : String} {o : Option Rat} :
    k ∈ bodyKeys (relevanceThresholdPart o) ↔ k = "relevance_threshold" ∧ o ≠ none := by
  cases o <;> simp [relevanceThresholdPart, bodyKeys]

/-- `category` part key characterization: present only for a truthy
(non-empty) configured category. -/
theorem mem_bodyKeys_categoryPart {k : String} {o : Option String} :
    k ∈ bodyKeys (categoryPart o) ↔ k = "category" ∧ ∃ c, o = some c ∧ c ≠ "" := by
  cases o with
  | none => simp [categoryPart, bodyKeys]
  | some c =>
      by_cases hc : c = ""
      · subst hc; simp [categoryPart, bodyKeys]
      · simp [categoryPart, bodyKeys, hc]

/-- `response_length` part key characterization. -/
theorem mem_bodyKeys_responseLengthPart {k : String} {o : Option RespLen} :
    k ∈ bodyKeys (responseLengthPart o) ↔ k = "response_length" ∧ o ≠ none := by
  cases o <;> simp [responseLengthPart, bodyKeys]

/-- Config-fallback `included_sources` part key characterization. -/
theorem mem_bodyKeys_includedSourcesCfgPart {k : String} {cfgI : Option (List String)} :
    k ∈ bodyKeys (includedSourcesCfgPart cfgI)
      ↔ k = "included_sources" ∧ ∃ l, cfgI = some l ∧ l ≠ [] := by
  cases cfgI with
  | none => simp [includedSourcesCfgPart, bodyKeys]
  | some m =>
      cases m with
      | nil => simp [includedSourcesCfgPart, bodyKeys]
      | cons x xs => simp [includedSourcesCfgPart, bodyKeys]

/-- `included_sources` pick key characterization: present when the
per-call list is non-empty or, failing that, the configured list is. -/
theorem mem_bodyKeys_includedSourcesPick {k : String} {argI cfgI : Option (List String)} :
    k ∈ bodyKeys (includedSourcesPick argI cfgI)
      ↔ k = "included_sources"
        ∧ ((∃ l, argI = some l ∧ l ≠ []) ∨ (∃ l, cfgI = some l ∧ l ≠ [])) := by
  cases argI with
  | none => simp [includedSourcesPick, mem_bodyKeys_includedSourcesCfgPart]
  | some l =>
      cases l with
      | nil => simp [includedSourcesPick, mem_bodyKeys_includedSourcesCfgPart]
      | cons x xs => simp [includedSourcesPick, bodyKeys]

/-- `excluded_sources` part key characterization. -/
theorem mem_bodyKeys_excludedSourcesPart {k : String} {argE : Option (List String)} :
    k ∈ bodyKeys (excludedSourcesPart argE)
      ↔ k = "excluded_sources" ∧ ∃ l, argE = some l ∧ l ≠ [] := by
  cases argE with
  | none => simp [excludedSourcesPart, bodyKeys]
  | some l =>
      cases l with
      | nil => simp [excludedSourcesPart, bodyKeys]
      | cons x xs => simp [excludedSourcesPart, bodyKeys]

/-- C2 counterexample: `webSearch` never emits `response_length`, so an
explicitly set `responseLength` is a dropped field, refuting the exact
1:1 key mapping as stated. -/
theorem C2_counterexample_dropped_response_length :
    ({ apiKey := some "k", responseLength := some (.preset "short") }
        : ValyuWebSearchConfig).responseLength ≠ none
    ∧ webSearchRequestBody
        { apiKey := some "k", responseLength := some (.preset "short") }
        { query := "q" }
      = [("query", .str "q"), ("search_type", .str "all"),
         ("max_num_results", .num 5)] := by
  exact ⟨by simp, rfl⟩

/-- C2 amended: for `webSearch`, the composed body's keys are exactly:
the three base fields always; `max_price` and `relevance_threshold` iff
the corresponding config field is set; `category` iff the config category
is set non-empty; `included_sources` iff the per-call list is non-empty
or the configured list is non-empty; `excluded_sources` iff the per-call
list is non-empty; and `response_length` (like `is_tool_call`) is never
emitted, even when the corresponding config field is set. -/
theorem C2_amended_websearch_key_iff (cfg : ValyuWebSearchConfig) (a : SearchArgs) :
    ("query" ∈ bodyKeys (webSearchRequestBody cfg a)) ∧
    ("search_type" ∈ bodyKeys (webSearchRequestBody cfg a)) ∧
    ("max_num_results" ∈ bodyKeys (webSearchRequestBody cfg a)) ∧
    (("max_price" ∈ bodyKeys (webSearchRequestBody cfg a)) ↔ cfg.maxPrice ≠ none) ∧
    (("relevance_threshold" ∈ bodyKeys (webSearchRequestBody cfg a))
      ↔ cfg.relevanceThreshold ≠ none) ∧
    (("category" ∈ bodyKeys (webSearchRequestBody cfg a))
      ↔ ∃ c, cfg.category = some c ∧ c ≠ "") ∧
    (("included_sources" ∈ bodyKeys (webSearchRequestBody cfg a))
      ↔ ((∃ l, a.includedSources = some l ∧ l ≠ [])
          ∨ (∃ l, cfg.includedSources = some l ∧ l ≠ []))) ∧
    (("excluded_sources" ∈ bodyKeys (webSearchRequestBody cfg a))
      ↔ ∃ l, a.excludedSources = some l ∧ l ≠ []) ∧
    ("response_length" ∉ bodyKeys (webSearchRequestBody cfg a)) ∧
    ("is_tool_call" ∉ bodyKeys (webSearchRequestBody cfg a)) := by
  refine ⟨?_, ?_, ?_, ?_, ?_, ?_, ?_, ?_, ?_, ?_⟩ <;>
  · simp only [webSearchRequestBody, mem_bodyKeys_append, mem_bodyKeys_maxPricePart,
      mem_bodyKeys_relevanceThresholdPart, mem_bodyKeys_categoryPart,
      mem_bodyKeys_includedSourcesPick, mem_bodyKeys_excludedSourcesPart]
    simp [bodyKeys]

/-- Looking a key up past a block that does not contain it. -/
theorem lookup_skip {k : String} {y : List (String × JVal)} :
    ∀ {x : List (String × JVal)}, k ∉ bodyKeys x →
      (x ++ y).lookup k = y.lookup k := by
  intro x
  induction x with
  | nil => intro _; rfl
  | cons p xs ih =>
      intro h
      obtain ⟨h1, h2⟩ : ¬k = p.1 ∧ k ∉ bodyKeys xs := by
        simpa [bodyKeys, not_or] using h
      rcases p with ⟨k1, v⟩
      simpa [List.lookup, beq_eq_false_iff_ne.mpr h1] using ih h2

/-- Head hit for lookup. -/
theorem lookup_head {k : String} {v : JVal} {l : List (String × JVal)} :
    ((k, v) :: l).lookup k = some v := by
  simp [List.lookup]

/-- A hit in the left block survives appending a right block. -/
theorem lookup_append_left {k : String} {v : JVal} {y : List (String × JVal)} :
    ∀ {x : List (String × JVal)}, List.lookup k x = some v →
      (x ++ y).lookup k = some v := by
  intro x
  induction x with
  | nil => intro h; cases h
  | cons p xs ih =>
      intro h
      rcases p with ⟨k1, w⟩
      by_cases hk : k = k1
      · subst hk
        simp only [List.lookup, beq_self_eq_true] at h ⊢
        simpa using h
      · simp only [List.lookup, beq_eq_false_iff_ne.mpr hk] at h ⊢
        exact ih h

/-- Whatever the outcome, the single fetch issues exactly one request:
the composed one. -/
theorem runFetch_requests (head : String) (req : NetRequest)
    (transport : NetRequest → FetchOutcome) :
    (runFetch head req transport).snd = [req] := by
  unfold runFetch; cases transport req <;> rfl

/-- A non-empty per-call included list makes the pick a singleton with
exactly that list, whatever is configured. -/
theorem includedSourcesPick_nonempty {inc : List String} (h : inc ≠ [])
    (cfgI : Option (List String)) :
    includedSourcesPick (some inc) cfgI = [("included_sources", .strList inc)] := by
  cases inc with
  | nil => exact absurd rfl h
  | cons x xs => simp [includedSourcesPick]

/-- A non-empty per-call excluded list is emitted as supplied. -/
theorem excludedSourcesPart_nonempty {exc : List String} (h : exc ≠ []) :
    excludedSourcesPart (some exc) = [("excluded_sources", .strList exc)] := by
  cases exc with
  | nil => exact absurd rfl h
  | cons x xs => simp [excludedSourcesPart]

/-- C5: supplying both a non-empty `includedSources` and a non-empty
`excludedSources` composes a body carrying both `included_sources` and
`excluded_sources` with exactly the supplied values — no local rejection
or arbitration — and, with a resolvable key, that body is forwarded
unchanged in the single issued request, for `search` and `webSearch`. -/
theorem C5_both_source_lists_forwarded (env : Option String)
    (cfg : ValyuSearchConfig) (q : String) (inc exc : List String)
    (hinc : inc ≠ []) (hexc : exc ≠ []) :
    ((searchRequestBody cfg ⟨q, some inc, some exc⟩).lookup "included_sources"
        = some (.strList inc)) ∧
    ((searchRequestBody cfg ⟨q, some inc, some exc⟩).lookup "excluded_sources"
        = some (.strList exc)) ∧
    ((webSearchRequestBody cfg ⟨q, some inc, some exc⟩).lookup "included_sources"
        = some (.strList inc)) ∧
    ((webSearchRequestBody cfg ⟨q, some inc, some exc⟩).lookup "excluded_sources"
        = some (.strList exc)) ∧
    (∀ k transport, resolveApiKey env cfg.apiKey = some k → k ≠ "" →
      (searchExecute env cfg ⟨q, some inc, some exc⟩ transport).snd.map
          NetRequest.body
        = [some (searchRequestBody cfg ⟨q, some inc, some exc⟩)]
      ∧ (webSearchExecute env cfg ⟨q, some inc, some exc⟩ transport).snd.map
          NetRequest.body
        = [some (webSearchRequestBody cfg ⟨q, some inc, some exc⟩)]) := by
  have hpick := includedSourcesPick_nonempty hinc cfg.includedSources
  have hexc2 := excludedSourcesPart_nonempty hexc
  refine ⟨?_, ?_, ?_, ?_, ?_⟩
  · simp only [searchRequestBody, hpick, hexc2]
    exact lookup_append_left ((lookup_skip (by
      simp only [mem_bodyKeys_append, mem_bodyKeys_maxPricePart,
        mem_bodyKeys_relevanceThresholdPart, mem_bodyKeys_categoryPart,
        mem_bodyKeys_responseLengthPart]
      simp [bodyKeys])).trans lookup_head)
  · simp only [searchRequestBody, hpick, hexc2]
    exact (lookup_skip (by
      simp only [mem_bodyKeys_append, mem_bodyKeys_maxPricePart,
        mem_bodyKeys_relevanceThresholdPart, mem_bodyKeys_categoryPart,
        mem_bodyKeys_responseLengthPart]
      simp [bodyKeys])).trans lookup_head
  · simp only [webSearchRequestBody, hpick, hexc2]
    exact lookup_append_left ((lookup_skip (by
      simp only [mem_bodyKeys_append, mem_bodyKeys_maxPricePart,
        mem_bodyKeys_relevanceThresholdPart, mem_bodyKeys_categoryPart]
      simp [bodyKeys])).trans lookup_head)
  · simp only [webSearchRequestBody, hpick, hexc2]
    exact (lookup_skip (by
      simp only [mem_bodyKeys_append, mem_bodyKeys_maxPricePart,
        mem_bodyKeys_relevanceThresholdPart, mem_bodyKeys_categoryPart]
      simp [bodyKeys])).trans lookup_head
  · intro k transport hk hk2
    constructor
    · simp only [searchExecute]
      rw [guardKey_provided hk hk2, runFetch_requests]
      rfl
    · simp only [webSearchExecute]
      rw [guardKey_provided hk hk2, runFetch_requests]
      rfl

/-- Witness for C5 at concrete lists. -/
theorem C5_both_source_lists_forwarded_witness :
    ((searchRequestBody {} ⟨"q", some ["a.com"], some ["b.com"]⟩).lookup
        "included_sources" = some (.strList ["a.com"])) ∧
    ((searchRequestBody {} ⟨"q", some ["a.com"], some ["b.com"]⟩).lookup
        "excluded_sources" = some (.strList ["b.com"])) := by
  have h := C5_both_source_lists_forwarded (some "k") {} "q" ["a.com"] ["b.com"]
    (by decide) (by decide)
  exact ⟨h.1, h.2.1⟩

/-- C7: configuration resolution precedence — a non-empty per-call
included-sources argument beats the configured list (for `search` and
`webSearch`); the configured list beats the tool default when no argument
is given; explicit `searchType` / `maxNumResults` / `includedSources`
configuration beats the tool-specific defaults ("all", 5, and the finance
default source list respectively); an explicit caller `apiKey` beats the
environment fallback; the environment is used only when `apiKey` is
`undefined`; and the environment affects nothing but the key: the issued
request body is identical under different environments. -/
theorem C7_config_precedence (env : Option String) (cfg : ValyuSearchConfig)
    (a : SearchArgs) :
    (∀ l, a.includedSources = some l → l ≠ [] →
      (searchRequestBody cfg a).lookup "included_sources" = some (.strList l)
      ∧ (webSearchRequestBody cfg a).lookup "included_sources"
          = some (.strList l)) ∧
    (∀ m, a.includedSources = none → cfg.includedSources = some m → m ≠ [] →
      (searchRequestBody cfg a).lookup "included_sources" = some (.strList m)) ∧
    (∀ st, cfg.searchType = some st →
      (searchRequestBody cfg a).lookup "search_type" = some (.str st)) ∧
    (cfg.searchType = none →
      (searchRequestBody cfg a).lookup "search_type" = some (.str "all")) ∧
    (∀ n, cfg.maxNumResults = some n →
      (searchRequestBody cfg a).lookup "max_num_results" = some (.num n)) ∧
    (cfg.maxNumResults = none →
      (searchRequestBody cfg a).lookup "max_num_results" = some (.num 5)) ∧
    (∀ cfgF : ValyuFinanceSearchConfig, ∀ q m, cfgF.includedSources = some m →
      (financeSearchRequestBody cfgF q).lookup "included_sources"
        = some (.strList m)) ∧
    (∀ cfgF : ValyuFinanceSearchConfig, ∀ q, cfgF.includedSources = none →
      (financeSearchRequestBody cfgF q).lookup "included_sources"
        = some (.strList financeDefaultSources)) ∧
    (∀ k, cfg.apiKey = some k → resolveApiKey env cfg.apiKey = some k) ∧
    (cfg.apiKey = none → resolveApiKey env cfg.apiKey = env) ∧
    (∀ env2 k k2 transport, resolveApiKey env cfg.apiKey = some k → k ≠ "" →
      resolveApiKey env2 cfg.apiKey = some k2 → k2 ≠ "" →
      (searchExecute env cfg a transport).snd.map NetRequest.body
        = (searchExecute env2 cfg a transport).snd.map NetRequest.body) := by
  refine ⟨?_, ?_, ?_, ?_, ?_, ?_, ?_, ?_, ?_, ?_, ?_⟩
  · intro l hl hlne
    have hpick : includedSourcesPick a.includedSources cfg.includedSources
        = [("included_sources", .strList l)] := by
      rw [hl]; exact includedSourcesPick_nonempty hlne _
    constructor
    · simp only [searchRequestBody, hpick]
      exact lookup_append_left ((lookup_skip (by
        simp only [mem_bodyKeys_append, mem_bodyKeys_maxPricePart,
          mem_bodyKeys_relevanceThresholdPart, mem_bodyKeys_categoryPart,
          mem_bodyKeys_responseLengthPart]
        simp [bodyKeys])).trans lookup_head)
    · simp only [webSearchRequestBody, hpick]
      exact lookup_append_left ((lookup_skip (by
        simp only [mem_bodyKeys_append, mem_bodyKeys_maxPricePart,
          mem_bodyKeys_relevanceThresholdPart, mem_bodyKeys_categoryPart]
        simp [bodyKeys])).trans lookup_head)
  · intro m hnone hm hmne
    have hcfgp : includedSourcesCfgPart cfg.includedSources
        = [("included_sources", .strList m)] := by
      rw [hm]
      cases m with
      | nil => exact absurd rfl hmne
      | cons x xs => simp [includedSourcesCfgPart]
    have hpick : includedSourcesPick a.includedSources cfg.includedSources
        = [("included_sources", .strList m)] := by
      rw [hnone]; simpa [includedSourcesPick] using hcfgp
    simp only [searchRequestBody, hpick]
    exact lookup_append_left ((lookup_skip (by
      simp only [mem_bodyKeys_append, mem_bodyKeys_maxPricePart,
        mem_bodyKeys_relevanceThresholdPart, mem_bodyKeys_categoryPart,
        mem_bodyKeys_responseLengthPart]
      simp [bodyKeys])).trans lookup_head)
  · intro st hst
    simp only [searchRequestBody]
    repeat apply lookup_append_left
    simp [List.lookup, hst]
  · intro hst
    simp only [searchRequestBody]
    repeat apply lookup_append_left
    simp [List.lookup, hst]
  · intro n hn
    simp only [searchRequestBody]
    repeat apply lookup_append_left
    simp [List.lookup, hn]
  · intro hn
    simp only [searchRequestBody]
    repeat apply lookup_append_left
    simp [List.lookup, hn]
  · intro cfgF q m hm
    simp only [financeSearchRequestBody]
    repeat apply lookup_append_left
    simp [List.lookup, hm]
  · intro cfgF q hm
    simp only [financeSearchRequestBody]
    repeat apply lookup_append_left
    simp [List.lookup, hm]
  · intro k hk
    simp [resolveApiKey, hk]
  · intro hk
    simp [resolveApiKey, hk]
  · intro env2 k k2 transport h1 h2 h3 h4
    simp only [searchExecute]
    rw [guardKey_provided h1 h2, guardKey_provided h3 h4,
      runFetch_requests, runFetch_requests]
    rfl

/-- Config used in the C7 witness: explicit key, search type, result
count and included list, all of which lose to arguments / beat defaults
as the theorem states. -/
def c7Cfg : ValyuSearchConfig :=
  { apiKey := some "ck", searchType := some "web", maxNumResults := some 7,
    includedSources := some ["cfg.com"] }

/-- Arguments used in the C7 witness. -/
def c7Args : SearchArgs := { query := "q", includedSources := some ["arg.com"] }

/-- Witness for C7 at concrete inputs: the argument list wins over the
configured one, the configured search type and result count win over the
defaults, and the configured key wins over the environment. -/
theorem C7_config_precedence_witness :
    ((searchRequestBody c7Cfg c7Args).lookup "included_sources"
      = some (.strList ["arg.com"])) ∧
    ((searchRequestBody c7Cfg c7Args).lookup "search_type"
      = some (.str "web")) ∧
    ((searchRequestBody c7Cfg c7Args).lookup "max_num_results"
      = some (.num 7)) ∧
    (resolveApiKey (some "ek") c7Cfg.apiKey = some "ck") := by
  have h := C7_config_precedence (some "ek") c7Cfg c7Args
  exact ⟨(h.1 ["arg.com"] rfl (by decide)).1, h.2.2.1 "web" rfl,
    h.2.2.2.2.1 7 rfl, h.2.2.2.2.2.2.2.2.1 "ck" rfl⟩

/-- C8: a `companyResearch` invocation requesting several sections
tolerates a per-section transport failure — the failed section is
reported inline in the document, the successful sections are still
included, and the call itself still returns (it does not raise). -/
theorem C8_partial_section_failure (env : Option String)
    (cfg : ValyuCompanyResearchConfig) (company sSum eFin : String)
    (fetchSection : String → Except String String) (k : String)
    (hk : resolveApiKey env cfg.apiKey = some k) (hk2 : k ≠ "")
    (hs : fetchSection "summary" = .ok sSum)
    (hf : fetchSection "financials" = .error eFin) :
    ∃ doc, companyResearchExecute env cfg company
        (some ["summary", "financials"]) fetchSection = .ok doc
      ∧ strContains doc ("## " ++ "summary" ++ "\n" ++ sSum ++ "\n")
      ∧ strContains doc
          ("## " ++ "financials" ++ "\n[section failed: " ++ eFin ++ "]" ++ "\n") := by
  have h1 : renderSection fetchSection "summary"
      = "## " ++ "summary" ++ "\n" ++ sSum ++ "\n" := by
    simp [renderSection, hs]
  have h2 : renderSection fetchSection "financials"
      = "## " ++ "financials" ++ "\n[section failed: " ++ eFin ++ "]" ++ "\n" := by
    simp [renderSection, hf]
  have hrun : companyResearchExecute env cfg company
      (some ["summary", "financials"]) fetchSection
      = .ok ("# Company Research: " ++ company ++ "\n" ++
          (renderSection fetchSection "summary"
            ++ (renderSection fetchSection "financials" ++ ""))) := by
    simp [companyResearchExecute, hk, hk2, concatAll]
  refine ⟨_, hrun, ?_, ?_⟩
  · rw [h1]
    exact strContains_of_eq ("# Company Research: " ++ company ++ "\n") _
      (renderSection fetchSection "financials" ++ "")
      (by simp [String.append_assoc])
  · rw [h2]
    exact strContains_of_eq
      ("# Company Research: " ++ company ++ "\n"
        ++ renderSection fetchSection "summary") _ ""
      (by simp [String.append_assoc, String.append_empty])

/-- Section transport used by the C8 witness: only `financials` fails. -/
def c8Fetch : String → Except String String :=
  fun s => if s = "financials" then .error "network down" else .ok "All quiet."

/-- Witness for C8 at a concrete invocation: the summary section content
survives, the financials section is marked failed inline, and the call
returns a document. -/
theorem C8_partial_section_failure_witness :
    ∃ doc, companyResearchExecute (some "k") {} "Apple Inc"
        (some ["summary", "financials"]) c8Fetch = .ok doc
      ∧ strContains doc ("## " ++ "summary" ++ "\n" ++ "All quiet." ++ "\n")
      ∧ strContains doc
          ("## " ++ "financials" ++ "\n[section failed: "
            ++ "network down" ++ "]" ++ "\n") :=
  C8_partial_section_failure (some "k") {} "Apple Inc" "All quiet."
    "network down" c8Fetch "k" rfl (by decide) rfl rfl

end Valyu
